import Mathlib

/-!
Verification of the slide-library indexer / search engine
(`src/slide_library.py`) and the proposal deck builder
(`src/pptx_builder.py`) of the foundever-mcp-server repository.

The Python code is shallowly embedded: strings are Lean `String`s,
Python `float` scores are modelled as exact rationals `ℚ`
(the score arithmetic only involves small rationals, far from any
floating-point rounding boundary), Python lists are Lean `List`s,
Python dicts are association lists that preserve insertion order,
and functions that raise exceptions return `Except String`.
Directory listings (`sorted(path.iterdir())`, `sorted(glob("*.pptx"))`)
are modelled as the already-sorted lists of entries they produce.
-/

namespace Foundever

/-- Lower-case a string character by character (Python `str.lower`;
inputs of interest are ASCII, where `Char.toLower` agrees with Python). -/
def strLower (s : String) : String := ⟨s.data.map Char.toLower⟩

/-- `leadEq n h` is true when `n` is an initial run of `h`
(used to implement substring search). -/
def leadEq : List Char → List Char → Bool
  | [], _ => true
  | _ :: _, [] => false
  | a :: as, b :: bs => a == b && leadEq as bs

/-- `subSeqAt n h` is true when `n` occurs contiguously somewhere in `h`. -/
def subSeqAt : List Char → List Char → Bool
  | n, [] => leadEq n []
  | n, h :: t => leadEq n (h :: t) || subSeqAt n t

/-- Python `needle in hay` on strings: contiguous substring test. -/
def strContains (hay needle : String) : Bool := subSeqAt needle.data hay.data

/-- Python `str.strip()` (whitespace from both ends). -/
def pyStrip (s : String) : String :=
  ⟨((s.data.dropWhile Char.isWhitespace).reverse.dropWhile Char.isWhitespace).reverse⟩

/-- Helper for `pyWords`: accumulate the current word (reversed) while
scanning the character list. -/
def wordsAux : List Char → List Char → List (List Char)
  | cur, [] => if cur.isEmpty then [] else [cur.reverse]
  | cur, c :: rest =>
      if c.isWhitespace then
        if cur.isEmpty then wordsAux [] rest else cur.reverse :: wordsAux [] rest
      else wordsAux (c :: cur) rest

/-- Python `str.split()` with no argument: split on whitespace runs,
discarding empty pieces. -/
def pyWords (s : String) : List String := (wordsAux [] s.data).map List.asString

/-- Round a rational to the nearest integer, ties to the even integer
(Python `round` semantics on exact values). -/
def roundHalfEven (q : ℚ) : ℤ :=
  let f := ⌊q⌋
  let r := q - f
  if r < 1 / 2 then f
  else if 1 / 2 < r then f + 1
  else if Even f then f else f + 1

/-- Python `round(q, 3)`. -/
def pyRound3 (q : ℚ) : ℚ := (roundHalfEven (1000 * q) : ℚ) / 1000

/-- Insert `x` into a list that is sorted descending with respect to
`gt`, after every element that is not strictly smaller — the insertion
step of a stable descending sort. -/
def insDescBy (gt : α → α → Bool) (x : α) : List α → List α
  | [] => [x]
  | y :: ys => if gt x y then x :: y :: ys else y :: insDescBy gt x ys

/-- Stable descending sort (Python `list.sort(key=..., reverse=True)`:
equal keys keep their original relative order). -/
def sortDescBy (gt : α → α → Bool) (l : List α) : List α :=
  l.foldl (fun acc x => insDescBy gt x acc) []

/-- Python list indexing `l[i]` with negative-index support;
`none` models an `IndexError`. -/
def pyIndex (l : List α) (i : ℤ) : Option α :=
  if 0 ≤ i then l.get? i.toNat
  else if (-i) ≤ (l.length : ℤ) then l.get? (l.length - (-i).toNat) else none

/-- Python `d[k] = d.get(k, 0) + 1` on an insertion-ordered dict. -/
def bumpCount (d : List (String × Nat)) (k : String) : List (String × Nat) :=
  if d.any (fun p => p.1 == k) then
    d.map (fun p => if p.1 == k then (p.1, p.2 + 1) else p)
  else d ++ [(k, 1)]

/-- Python `d[k] = v` on an insertion-ordered dict: overwrite in place
if the key exists, else append. -/
def dictSet (d : List (String × α)) (k : String) (v : α) : List (String × α) :=
  if d.any (fun p => p.1 == k) then
    d.map (fun p => if p.1 == k then (p.1, v) else p)
  else d ++ [(k, v)]

/-- Truthiness of an optional string argument (Python `if arg:`):
`None` and the empty string are falsy. -/
def optTruthy : Option String → Bool
  | none => false
  | some s => !s.isEmpty

/-- `isErr e` is true when `e` is an `Except.error` (a Python exception
propagating out of the call). -/
def isErr : Except ε α → Bool
  | .error _ => true
  | .ok _ => false

/-- Zero-pad a numeral string to width 4 (Python `f"slide_{n:04d}"`). -/
def pad4 (n : Nat) : String :=
  let s := toString n
  ⟨List.replicate (4 - s.length) '0' ++ s.data⟩

end Foundever

namespace Foundever.SlideLibrary

/-- `PRIMARY_LABELS` from `slide_library.py`. -/
def PRIMARY_LABELS : List String :=
  ["executive_summary", "solution_overview", "operational_details",
   "case_study", "compliance_security", "project_plan",
   "pricing", "other", "unclassified"]

/-- `BACKEND_SECTIONS` from `slide_library.py`. -/
def BACKEND_SECTIONS : List String :=
  ["executive_summary", "client_understanding", "solution_overview",
   "delivery_model", "technology", "governance_compliance",
   "implementation", "team_leadership", "proof_points"]

/-- `LABEL_KEYWORDS` from `slide_library.py` (insertion-ordered dict). -/
def LABEL_KEYWORDS : List (String × List String) :=
  [("executive_summary",
    ["executive summary", "overview", "strategic", "partnership",
     "why foundever", "at a glance", "introduction"]),
   ("solution_overview",
    ["solution", "approach", "capability", "platform", "ecosystem",
     "offering", "service model", "our approach"]),
   ("operational_details",
    ["process", "workflow", "staffing", "FTE", "headcount", "shift",
     "scorecard", "quality", "site", "facility", "roster", "SOP",
     "workforce", "scheduling", "training", "ramp", "attrition",
     "org chart", "leadership", "account manager"]),
   ("case_study",
    ["case study", "client example", "success story", "outcome",
     "result", "before and after", "proof point", "testimonial"]),
   ("compliance_security",
    ["compliance", "security", "certification", "SOC", "PCI",
     "HIPAA", "GDPR", "regulatory", "audit", "risk", "governance",
     "ISO", "NIST"]),
   ("project_plan",
    ["implementation", "transition", "timeline", "milestone",
     "go-live", "phase", "migration", "ramp plan", "project plan"]),
   ("pricing",
    ["pricing", "cost", "rate", "commercial", "fee",
     "investment", "budget"])]

/-- `SECTION_REFINEMENT` from `slide_library.py`:
key, refinement keywords, target section. -/
def SECTION_REFINEMENT : List (String × List String × String) :=
  [("team_leadership",
    (["org chart", "leadership", "escalation", "account manager",
      "director", "VP", "management structure"], "team_leadership")),
   ("technology",
    (["platform", "tool", "software", "CRM", "telephony", "IVR",
      "API", "AI", "automation", "analytics", "dashboard"], "technology")),
   ("delivery_model",
    (["FTE", "staffing", "site", "headcount", "shift", "roster",
      "capacity", "facility", "location", "onshore", "offshore",
      "nearshore"], "delivery_model")),
   ("solution_overview",
    (["process", "workflow", "SOP", "procedure", "methodology"],
     "solution_overview"))]

/-- `LABEL_TO_PRIMARY_SECTION` from `slide_library.py`. -/
def LABEL_TO_PRIMARY_SECTION : List (String × String) :=
  [("executive_summary", "executive_summary"),
   ("solution_overview", "solution_overview"),
   ("operational_details", "delivery_model"),
   ("case_study", "proof_points"),
   ("compliance_security", "governance_compliance"),
   ("project_plan", "implementation"),
   ("pricing", "executive_summary"),
   ("other", "executive_summary"),
   ("unclassified", "executive_summary")]

/-- `SlideEntry` dataclass (the free-form `metadata` dict is modelled
as an opaque list of key/value strings; no claim inspects it). -/
structure SlideEntry where
  id : String
  theme : String
  file_name : String
  pptx_path : String
  ocr_text : String
  primary_label : String
  backend_section : String
  confidence : ℚ
  keywords_matched : List String
  slide_count : Nat := 1
  has_thumbnail : Bool := false
  thumbnail_path : Option String := none
  metadata : List (String × String) := []
  deriving Repr, DecidableEq

/-- `ThemeInfo` dataclass. -/
structure ThemeInfo where
  name : String
  path : String
  slide_count : Nat
  label_distribution : List (String × Nat)
  section_distribution : List (String × Nat)
  sample_keywords : List String
  deriving Repr, DecidableEq

/-- `SlideSearchResult` dataclass. -/
structure SlideSearchResult where
  slide : SlideEntry
  score : ℚ
  match_reason : String
  deriving Repr, DecidableEq

/-- The scoring core of `_classify_text` for one label:
match ratio, optional 1.5 theme boost, clamp at 1. -/
def labelScore (matchedLen totalLen : Nat) (themeMatch : Bool) : ℚ :=
  min (if themeMatch then ((matchedLen : ℚ) / (totalLen : ℚ)) * (3 / 2)
       else (matchedLen : ℚ) / (totalLen : ℚ)) 1

/-- The keywords of `kws` matching (case-insensitively, as substrings)
inside `combined`. -/
def matchedKeywords (kws : List String) (combined : String) : List String :=
  kws.filter fun kw => strContains combined (strLower kw)

/-- The `combined` string scored by `_classify_text`: lower-cased theme
name and slide text (with the empty-text fallback to the theme name)
joined by a space. -/
def combinedText (text theme_name : String) : String :=
  let text := if (pyStrip text).isEmpty then theme_name else text
  strLower theme_name ++ " " ++ strLower text

/-- The `theme_match` condition of `_classify_text`: some keyword of the
label also occurs in the lower-cased theme name. -/
def themeMatched (kws : List String) (theme_name : String) : Bool :=
  kws.any fun kw => strContains (strLower theme_name) (strLower kw)

/-- The per-label candidate scores built by `_classify_text`:
one entry per label with at least one keyword match, in
`LABEL_KEYWORDS` order. -/
def classifyScores (text theme_name : String) : List (String × ℚ × List String) :=
  let combined := combinedText text theme_name
  LABEL_KEYWORDS.filterMap fun p =>
    let matched := matchedKeywords p.2 combined
    if matched.isEmpty then none
    else
      some (p.1, labelScore matched.length p.2.length (themeMatched p.2 theme_name), matched)

/-- Python `max(scores, key=...)`: the first entry (in insertion order)
carrying the maximal score. -/
def pickBest : List (String × ℚ × List String) → Option (String × ℚ × List String)
  | [] => none
  | x :: xs => some (xs.foldl (fun best y => if best.2.1 < y.2.1 then y else best) x)

/-- `SlideLibraryManager._classify_text`: returns
(label, confidence rounded to 3 decimals, matched keywords). -/
def classify_text (text theme_name : String) : String × ℚ × List String :=
  match pickBest (classifyScores text theme_name) with
  | none => ("unclassified", 0, [])
  | some (label, confidence, matched_kw) => (label, pyRound3 confidence, matched_kw)

/-- `SlideLibraryManager._resolve_section`. -/
def resolve_section (primary_label text : String) : String :=
  if primary_label != "operational_details" then
    (LABEL_TO_PRIMARY_SECTION.lookup primary_label).getD "executive_summary"
  else
    let lower_text := strLower text
    match SECTION_REFINEMENT.find? (fun e =>
        2 ≤ (e.2.1.filter fun kw => strContains lower_text (strLower kw)).length) with
    | some e => e.2.2
    | none => "delivery_model"

/-- One `.pptx` file discovered inside a theme directory, together with
the sidecar data `index()` reads for it from disk (OCR text file,
thumbnail, parsed slide count, optional metadata). -/
structure RawSlide where
  file_name : String
  ocr_text : String := ""
  slide_count : Nat := 1
  has_thumbnail : Bool := false
  thumbnail_path : Option String := none
  metadata : List (String × String) := []
  deriving Repr, DecidableEq

/-- A theme subdirectory of the library root; `slides` is the sorted
`glob("*.pptx")` listing with sidecar data. -/
structure ThemeDir where
  name : String
  slides : List RawSlide
  deriving Repr, DecidableEq

/-- The loop body of `index()` for one file: build a `SlideEntry`. -/
def buildEntry (libPath themeName : String) (sid : Nat) (raw : RawSlide) : SlideEntry :=
  let r := classify_text raw.ocr_text themeName
  { id := "slide_" ++ pad4 sid
    theme := themeName
    file_name := raw.file_name
    pptx_path := libPath ++ "/" ++ themeName ++ "/" ++ raw.file_name
    ocr_text := raw.ocr_text
    primary_label := r.1
    backend_section := resolve_section r.1 raw.ocr_text
    confidence := r.2.1
    keywords_matched := r.2.2
    slide_count := raw.slide_count
    has_thumbnail := raw.has_thumbnail
    thumbnail_path := raw.thumbnail_path
    metadata := raw.metadata }

/-- The per-theme aggregation of `index()` (label/section distributions
and sample keywords; Python set iteration order is modelled as
first-occurrence order). -/
def buildThemeInfo (libPath : String) (themeName : String)
    (theme_slides : List SlideEntry) : ThemeInfo :=
  let label_dist := theme_slides.foldl (fun d s => bumpCount d s.primary_label) []
  let section_dist := theme_slides.foldl (fun d s => bumpCount d s.backend_section) []
  let all_keywords := theme_slides.foldl (fun acc s => acc ++ s.keywords_matched.take 3) []
  { name := themeName
    path := libPath ++ "/" ++ themeName
    slide_count := theme_slides.length
    label_distribution := label_dist
    section_distribution := section_dist
    sample_keywords := all_keywords.dedup.take 10 }

/-- Index one theme directory, numbering slides from `sid + 1`. -/
def indexTheme (libPath : String) (sid : Nat) (dir : ThemeDir) : List SlideEntry :=
  (dir.slides.enum.map fun p => buildEntry libPath dir.name (sid + 1 + p.1) p.2)

/-- One iteration of the `index()` main loop: index the files of one
theme directory (numbering slides after the ones already indexed) and,
when the theme is nonempty, store its aggregate info. -/
def indexStep (libPath : String) (acc : List SlideEntry × List (String × ThemeInfo))
    (dir : ThemeDir) : List SlideEntry × List (String × ThemeInfo) :=
  let theme_slides := indexTheme libPath acc.1.length dir
  (acc.1 ++ theme_slides,
   if theme_slides.isEmpty then acc.2
   else dictSet acc.2 dir.name (buildThemeInfo libPath dir.name theme_slides))

/-- The main loop of `index()`: walk the sorted theme directories,
numbering slides sequentially and aggregating per-theme info. -/
def buildIndex (libPath : String) (dirs : List ThemeDir) :
    List SlideEntry × List (String × ThemeInfo) :=
  dirs.foldl (indexStep libPath) ([], [])

/-- `SlideLibraryManager` state: `fs` is the content of
`library_path` on disk (`none` when the path does not exist),
`indexed` is the `_indexed` flag. -/
structure Manager where
  library_path : String
  fs : Option (List ThemeDir)
  slides : List SlideEntry := []
  themes : List (String × ThemeInfo) := []
  indexed : Bool := false
  deriving Repr, DecidableEq

/-- Python dict counting used by `_global_label_distribution`. -/
def globalLabelDistribution (slides : List SlideEntry) : List (String × Nat) :=
  slides.foldl (fun d s => bumpCount d s.primary_label) []

/-- `_global_section_distribution`. -/
def globalSectionDistribution (slides : List SlideEntry) : List (String × Nat) :=
  slides.foldl (fun d s => bumpCount d s.backend_section) []

/-- The summary statistics dict returned by `index()`. -/
structure IndexStats where
  total_slides : Nat
  total_themes : Nat
  themes : List (String × Nat)
  label_distribution : List (String × Nat)
  section_distribution : List (String × Nat)
  deriving Repr, DecidableEq

/-- `SlideLibraryManager.index()`: raises `FileNotFoundError` when the
library path does not exist, otherwise rebuilds the in-memory index
and returns summary statistics. -/
def indexOp (m : Manager) : Except String (Manager × IndexStats) :=
  match m.fs with
  | none => .error ("Library path not found: " ++ m.library_path)
  | some dirs =>
      let r := buildIndex m.library_path dirs
      let m' : Manager := { m with slides := r.1, themes := r.2, indexed := true }
      .ok (m', { total_slides := r.1.length
                 total_themes := r.2.length
                 themes := r.2.map fun p => (p.1, p.2.slide_count)
                 label_distribution := globalLabelDistribution r.1
                 section_distribution := globalSectionDistribution r.1 })

/-- `SlideLibraryManager._ensure_indexed`: lazily index on first use. -/
def ensureIndexed (m : Manager) : Except String Manager :=
  if m.indexed then .ok m else (indexOp m).map Prod.fst

/-- The filter guards at the top of the `search()` loop (a slide is
skipped when a truthy filter is supplied and does not match). -/
def passesFilters (s : SlideEntry)
    (theme_filter label_filter section_filter : Option String) : Bool :=
  !(optTruthy theme_filter && strLower s.theme != strLower (theme_filter.getD "")) &&
  !(optTruthy label_filter && s.primary_label != label_filter.getD "") &&
  !(optTruthy section_filter && s.backend_section != section_filter.getD "")

/-- The query tokenisation of `search()`:
lower-case, whitespace-split, drop tokens shorter than 2. -/
def queryTerms (query : String) : List String :=
  (pyWords (strLower query)).filterMap fun t =>
    if 2 ≤ (pyStrip t).length then some (strLower (pyStrip t)) else none

/-- The scoring part of the `search()` loop body for one slide that
passed the filters: keyword match density, theme and confidence boosts,
clamp and round; `none` models the zero-match `continue`. -/
def scoreCore (query_terms : List String) (s : SlideEntry) :
    Option SlideSearchResult :=
  let search_text := strLower (s.theme ++ " " ++ s.ocr_text ++ " " ++ s.file_name)
  let matched_terms := query_terms.filter fun t => strContains search_text t
  if matched_terms.isEmpty then none
  else
    let score : ℚ :=
      if query_terms.isEmpty then 0
      else (matched_terms.length : ℚ) / (query_terms.length : ℚ)
    let theme_lower := strLower s.theme
    let score :=
      if query_terms.any (fun t => strContains theme_lower t) then score * (13 / 10)
      else score
    let score := score * (1 / 2 + s.confidence * (1 / 2))
    some { slide := s
           score := pyRound3 (min score 1)
           match_reason := "Matched: " ++ String.intercalate ", " matched_terms }

/-- The full loop body of `search()` for one slide: the filter guards
(`continue` on a truthy non-matching filter) followed by scoring. -/
def scoreSlide (query_terms : List String) (s : SlideEntry)
    (theme_filter label_filter section_filter : Option String) :
    Option SlideSearchResult :=
  if passesFilters s theme_filter label_filter section_filter then
    scoreCore query_terms s
  else none

/-- `SlideLibraryManager.search` on an already-built slide list:
score, stable-sort descending, truncate to `limit`. -/
def searchRaw (slides : List SlideEntry) (query : String) (limit : Nat)
    (theme_filter label_filter section_filter : Option String) :
    List SlideSearchResult :=
  let terms := queryTerms query
  let results := slides.filterMap fun s =>
    scoreSlide terms s theme_filter label_filter section_filter
  (sortDescBy (fun a b => b.score < a.score) results).take limit

/-- `SlideLibraryManager.search` including `_ensure_indexed`. -/
def searchOp (m : Manager) (query : String) (limit : Nat)
    (theme_filter label_filter section_filter : Option String) :
    Except String (Manager × List SlideSearchResult) :=
  (ensureIndexed m).map fun m' =>
    (m', searchRaw m'.slides query limit theme_filter label_filter section_filter)

/-- `get_slides_for_section` on an already-built slide list:
filter by exact section, stable-sort by confidence descending, truncate. -/
def slidesForSection (slides : List SlideEntry) (sec : String) (limit : Nat) :
    List SlideEntry :=
  (sortDescBy (fun a b => b.confidence < a.confidence)
    (slides.filter fun s => s.backend_section == sec)).take limit

/-- `SlideLibraryManager.get_slides_for_section` including
`_ensure_indexed`. -/
def getSlidesForSectionOp (m : Manager) (sec : String) (limit : Nat) :
    Except String (Manager × List SlideEntry) :=
  (ensureIndexed m).map fun m' => (m', slidesForSection m'.slides sec limit)

/-- `get_slides_for_label` on an already-built slide list. -/
def slidesForLabel (slides : List SlideEntry) (label : String) (limit : Nat) :
    List SlideEntry :=
  (sortDescBy (fun a b => b.confidence < a.confidence)
    (slides.filter fun s => s.primary_label == label)).take limit

/-- `SlideLibraryManager.get_slides_for_label` including
`_ensure_indexed`. -/
def getSlidesForLabelOp (m : Manager) (label : String) (limit : Nat) :
    Except String (Manager × List SlideEntry) :=
  (ensureIndexed m).map fun m' => (m', slidesForLabel m'.slides label limit)

/-- `SlideLibraryManager.get_theme_slides` including `_ensure_indexed`. -/
def getThemeSlidesOp (m : Manager) (theme : String) :
    Except String (Manager × List SlideEntry) :=
  (ensureIndexed m).map fun m' =>
    (m', m'.slides.filter fun s => strLower s.theme == strLower theme)

/-- `SlideLibraryManager.list_themes` including `_ensure_indexed`:
theme summaries sorted by slide count descending. -/
def listThemesOp (m : Manager) : Except String (Manager × List ThemeInfo) :=
  (ensureIndexed m).map fun m' =>
    (m', sortDescBy (fun a b => b.slide_count < a.slide_count) (m'.themes.map Prod.snd))

/-- The statistics dict returned by `get_library_stats`. -/
structure LibraryStats where
  library_path : String
  total_slides : Nat
  total_themes : Nat
  themes : List (String × Nat × List (String × Nat) × List (String × Nat))
  global_label_distribution : List (String × Nat)
  global_section_distribution : List (String × Nat)
  deriving Repr, DecidableEq

/-- `SlideLibraryManager.get_library_stats` including `_ensure_indexed`. -/
def getLibraryStatsOp (m : Manager) : Except String (Manager × LibraryStats) :=
  (ensureIndexed m).map fun m' =>
    (m', { library_path := m'.library_path
           total_slides := m'.slides.length
           total_themes := m'.themes.length
           themes := m'.themes.map fun p =>
             (p.1, p.2.slide_count, p.2.label_distribution, p.2.section_distribution)
           global_label_distribution := globalLabelDistribution m'.slides
           global_section_distribution := globalSectionDistribution m'.slides })

/-- `select_slides_for_proposal` on an already-built slide list.
`target_sections = sections or BACKEND_SECTIONS`: Python `or` replaces
both `None` and the falsy empty list by the default. -/
def selectSlides (slides : List SlideEntry) (sections : Option (List String))
    (max_per_section : Nat) : List (String × List SlideEntry) :=
  let target_sections :=
    match sections with
    | none => BACKEND_SECTIONS
    | some s => if s.isEmpty then BACKEND_SECTIONS else s
  target_sections.foldl
    (fun result sec =>
      let candidates := slidesForSection slides sec max_per_section
      if candidates.isEmpty then result else dictSet result sec candidates)
    []

/-- `SlideLibraryManager.select_slides_for_proposal` including
`_ensure_indexed`. -/
def selectSlidesOp (m : Manager) (sections : Option (List String))
    (max_per_section : Nat) :
    Except String (Manager × List (String × List SlideEntry)) :=
  (ensureIndexed m).map fun m' => (m', selectSlides m'.slides sections max_per_section)

end Foundever.SlideLibrary

namespace Foundever.PptxBuilder

/-- `SECTION_DISPLAY_NAMES` from `pptx_builder.py` (insertion-ordered
dict: the nine canonical backend sections and their display names). -/
def SECTION_DISPLAY_NAMES : List (String × String) :=
  [("executive_summary", "Executive Summary"),
   ("client_understanding", "Understanding Client Needs"),
   ("solution_overview", "Solution Overview"),
   ("delivery_model", "Delivery Model"),
   ("technology", "Technology & Innovation"),
   ("governance_compliance", "Governance & Compliance"),
   ("implementation", "Implementation & Transition"),
   ("team_leadership", "Team & Leadership"),
   ("proof_points", "Proof Points & Evidence")]

/-- `TextSegment` dataclass (rich-text run). -/
structure TextSegment where
  text : String
  bold : Bool := false
  italic : Bool := false
  underline : Bool := false
  color : Option String := none
  font_size : Option Nat := none
  deriving Repr, DecidableEq

/-- `SlideContent` dataclass (fields `add_section_slide` reads). -/
structure SlideContent where
  section_type : String
  title : String
  body_segments : List TextSegment := []
  subtitle : Option String := none
  speaker_notes : Option String := none
  table_data : Option (List (List String)) := none
  deriving Repr, DecidableEq

/-- A slide layout of the working presentation: its name and the
indices of the placeholders it defines. -/
structure Layout where
  name : String
  placeholder_idxs : List Nat := [0, 1]
  deriving Repr, DecidableEq

/-- A slide of the working presentation. Placeholder text, table data
and notes are recorded as the builder sets them; `shapes` holds the
opaque shape elements deep-copied by slide cloning. -/
structure Slide where
  layout_name : String
  placeholder_idxs : List Nat := []
  title : Option String := none
  body : Option (List TextSegment) := none
  table : Option (List (List String)) := none
  notes : Option String := none
  shapes : List String := []
  deriving Repr, DecidableEq

/-- A `python-pptx` `Presentation`: its layout list and slide list. -/
structure Presentation where
  layouts : List Layout
  slides : List Slide := []
  deriving Repr, DecidableEq

/-- `ProposalDeckBuilder` state. -/
structure Builder where
  prs : Option Presentation := none
  slide_count : Nat := 0
  sections_added : List String := []
  deriving Repr, DecidableEq

/-- `ProposalDeckBuilder.find_layout_by_name`: index of the first
layout whose lower-cased name contains the lower-cased pattern. -/
def find_layout_by_name (b : Builder) (name_pattern : String) : Option Nat :=
  match b.prs with
  | none => none
  | some prs =>
      prs.layouts.findIdx? fun l => strContains (strLower l.name) (strLower name_pattern)

/-- Python `x or default` where `x` is `None` or an `int`:
both `None` and `0` are falsy and yield the default. -/
def pyOrNat (x : Option Nat) (default : Nat) : Nat :=
  match x with
  | none => default
  | some n => if n = 0 then default else n

/-- `add_slide_from_layout` (without the unused `position` argument):
append a new slide using the given layout. -/
def add_slide_from_layout (prs : Presentation) (layout_index : Nat) :
    Except String (Presentation × Slide) :=
  match prs.layouts.get? layout_index with
  | none => .error "IndexError: layout index out of range"
  | some layout =>
      let slide : Slide :=
        { layout_name := layout.name, placeholder_idxs := layout.placeholder_idxs }
      .ok ({ prs with slides := prs.slides ++ [slide] }, slide)

/-- `ProposalDeckBuilder.add_section_slide`: pick a layout
(`find_layout_by_name("content") or 1`, clamped to the available
layouts), add the slide, populate
title/body/table/notes, count it and record its section type.
Returns the builder state after the call and the returned slide index
(`Except.error` models an exception propagating to the caller). -/
def add_section_slide (b : Builder) (content : SlideContent) :
    Builder × Except String Nat :=
  match b.prs with
  | none => (b, .error "AttributeError: no active presentation")
  | some prs =>
      let layout_idx := pyOrNat (find_layout_by_name b "content") 1
      let layout_idx :=
        if prs.layouts.length ≤ layout_idx then min 1 (prs.layouts.length - 1)
        else layout_idx
      match add_slide_from_layout prs layout_idx with
      | .error e => (b, .error e)
      | .ok (prs', slide) =>
          let slide := if slide.placeholder_idxs.contains 0 then
              { slide with title := some content.title } else slide
          let slide := if !content.body_segments.isEmpty &&
              slide.placeholder_idxs.contains 1 then
              { slide with body := some content.body_segments } else slide
          let slide := match content.table_data with
            | some rows => if !rows.isEmpty then { slide with table := some rows } else slide
            | none => slide
          let slide := match content.speaker_notes with
            | some notes => { slide with notes := some notes }
            | none => slide
          let prs' := { prs' with slides := prs'.slides.dropLast ++ [slide] }
          ({ b with prs := some prs'
                    slide_count := b.slide_count + 1
                    sections_added := b.sections_added ++ [content.section_type] },
           .ok b.slide_count)

/-- `clone_slide_from_file`: range-check the requested index (only
`index >= slide count` is rejected explicitly; a negative index is
passed to Python list indexing), pick a blank-like layout in the
target, append a new slide and deep-copy the source shapes and notes.
Returns the target presentation state after the call paired with the
call result. -/
def clone_slide_from_file (target_prs : Presentation) (source_slides : List Slide)
    (source_slide_index : ℤ) : Presentation × Except String Slide :=
  if (source_slides.length : ℤ) ≤ source_slide_index then
    (target_prs,
     .error ("Source has " ++ toString source_slides.length ++
             " slides, requested index " ++ toString source_slide_index))
  else
    match pyIndex source_slides source_slide_index with
    | none => (target_prs, .error "IndexError: list index out of range")
    | some source_slide =>
        let blank_layout :=
          match target_prs.layouts.find? (fun l => strContains (strLower l.name) "blank") with
          | some l => some l
          | none => target_prs.layouts.getLast?
        match blank_layout with
        | none => (target_prs, .error "IndexError: layout list is empty")
        | some layout =>
            let new_slide : Slide :=
              { layout_name := layout.name
                placeholder_idxs := layout.placeholder_idxs
                shapes := source_slide.shapes
                notes := match source_slide.notes with
                  | some t => if (pyStrip t).isEmpty then none else some t
                  | none => none }
            ({ target_prs with slides := target_prs.slides ++ [new_slide] }, .ok new_slide)

/-- `ProposalDeckBuilder.add_slide_from_library`: clone from the
source file, optionally append speaker notes, then count the slide.
Returns the builder state after the call paired with the call result
(the new slide index). -/
def add_slide_from_library (b : Builder) (source_slides : List Slide)
    (source_slide_index : ℤ) (speaker_notes_append : Option String) :
    Builder × Except String Nat :=
  match b.prs with
  | none => (b, .error "AttributeError: no active presentation")
  | some prs =>
      match clone_slide_from_file prs source_slides source_slide_index with
      | (_, .error e) => (b, .error e)
      | (prs', .ok new_slide) =>
          let new_slide :=
            match speaker_notes_append with
            | none => new_slide
            | some app =>
                let existing := (new_slide.notes).getD ""
                { new_slide with notes := some (pyStrip (existing ++ "\n\n" ++ app)) }
          let prs' := { prs' with slides := prs'.slides.dropLast ++ [new_slide] }
          ({ b with prs := some prs', slide_count := b.slide_count + 1 },
           .ok b.slide_count)

/-- `ProposalDeckBuilder.get_build_summary`: slide count, the raw
`sections_added` list, and the canonical sections not occurring in it. -/
def get_build_summary (b : Builder) : Nat × List String × List String :=
  (b.slide_count, b.sections_added,
   (SECTION_DISPLAY_NAMES.map Prod.fst).filter fun s => !b.sections_added.contains s)

/-- Run a sequence of `add_section_slide` calls, stopping at the first
exception (callers of the builder add section slides one by one). -/
def add_sections (b : Builder) : List SlideContent → Builder × Except String Unit
  | [] => (b, .ok ())
  | c :: cs =>
      match add_section_slide b c with
      | (b', .ok _) => add_sections b' cs
      | (b', .error e) => (b', .error e)

end Foundever.PptxBuilder

namespace Foundever.Examples

open Foundever.SlideLibrary Foundever.PptxBuilder

/-- A concrete indexed slide entry used as test input: high-confidence,
matching both tokens of the query `"budget plan"`. -/
def slideA : SlideEntry where
  id := "slide_0001"
  theme := "Alpha"
  file_name := "a.pptx"
  pptx_path := "lib/Alpha/a.pptx"
  ocr_text := "budget plan"
  primary_label := "pricing"
  backend_section := "executive_summary"
  confidence := 1
  keywords_matched := ["budget"]

/-- A concrete indexed slide entry used as test input: zero-confidence,
in a different theme and section, matching only the token `"budget"`. -/
def slideB : SlideEntry where
  id := "slide_0002"
  theme := "Beta"
  file_name := "b.pptx"
  pptx_path := "lib/Beta/b.pptx"
  ocr_text := "budget notes"
  primary_label := "pricing"
  backend_section := "delivery_model"
  confidence := 0
  keywords_matched := ["budget"]

/-- A concrete on-disk library with one theme holding one slide file
whose text matches no classification keyword. -/
def library1 : List ThemeDir :=
  [⟨"Ops", [{ file_name := "slide_001.pptx", ocr_text := "zzz qqq" }]⟩]

/-- A freshly constructed manager for `library1`:
`index()` has never been called. -/
def manager1 : Manager where
  library_path := "lib"
  fs := some library1

/-- A manager whose library path does not exist on disk. -/
def managerMissing : Manager where
  library_path := "gone"
  fs := none

/-- A concrete working presentation whose layout list has a
"content"-named layout at index 0 and a second layout at index 1. -/
def deck1 : Presentation where
  layouts := [{ name := "Main Content" }, { name := "Title Slide" }]

/-- A builder with `deck1` active and no slides added yet. -/
def builder1 : Builder where
  prs := some deck1

/-- Section content used as test input. -/
def contentP1 : SlideContent where
  section_type := "pricing"
  title := "Pricing Overview"

/-- A second content item with the same section type. -/
def contentP2 : SlideContent where
  section_type := "pricing"
  title := "Pricing Detail"

/-- A three-slide source file used as cloning input; the last slide
carries speaker notes. -/
def sourceSlides : List Slide :=
  [{ layout_name := "L0", shapes := ["shape0"] },
   { layout_name := "L1", shapes := ["shape1"] },
   { layout_name := "L2", shapes := ["shape2"], notes := some "clone note" }]

end Foundever.Examples

namespace Foundever

/-- Membership in the insertion step of the stable descending sort. -/
theorem mem_insDescBy {gt : α → α → Bool} {x y : α} :
    ∀ {l : List α}, y ∈ insDescBy gt x l ↔ y = x ∨ y ∈ l := by
  intro l
  induction l with
  | nil => simp [insDescBy]
  | cons a as ih =>
      simp only [insDescBy]
      split
      · simp [List.mem_cons]
      · simp only [List.mem_cons, ih]
        tauto

/-- The stable descending sort does not change membership. -/
theorem mem_sortDescBy {gt : α → α → Bool} {x : α} {l : List α} :
    x ∈ sortDescBy gt l ↔ x ∈ l := by
  suffices h : ∀ (l acc : List α), x ∈ l.foldl (fun acc y => insDescBy gt y acc) acc ↔
      x ∈ acc ∨ x ∈ l by
    simpa using h l []
  intro l
  induction l with
  | nil => simp
  | cons a as ih =>
      intro acc
      simp only [List.foldl_cons, ih, mem_insDescBy, List.mem_cons]
      tauto

/-- The insertion step grows the length by one. -/
theorem length_insDescBy {gt : α → α → Bool} {x : α} :
    ∀ {l : List α}, (insDescBy gt x l).length = l.length + 1 := by
  intro l
  induction l with
  | nil => simp [insDescBy]
  | cons a as ih =>
      simp only [insDescBy]
      split
      · simp
      · simp [ih]

/-- The stable descending sort preserves length. -/
theorem length_sortDescBy {gt : α → α → Bool} {l : List α} :
    (sortDescBy gt l).length = l.length := by
  suffices h : ∀ (l acc : List α),
      (l.foldl (fun acc y => insDescBy gt y acc) acc).length = acc.length + l.length by
    simpa using h l []
  intro l
  induction l with
  | nil => simp
  | cons a as ih =>
      intro acc
      rw [List.foldl_cons, ih, length_insDescBy, List.length_cons]
      omega

/-- A successful association-list lookup returns a stored pair. -/
theorem lookup_mem_pairs {d : List (String × α)} {k : String} {v : α}
    (h : d.lookup k = some v) : (k, v) ∈ d := by
  induction d with
  | nil => simp [List.lookup] at h
  | cons p t ih =>
      obtain ⟨k', v'⟩ := p
      by_cases hk : k = k'
      · subst hk
        simp [List.lookup] at h
        simp [h]
      · have hb : (k == k') = false := by simpa using hk
        simp only [List.lookup, hb] at h
        exact List.mem_cons_of_mem _ (ih h)

/-- The rounded value differs from the input by at most one half. -/
theorem roundHalfEven_close (q : ℚ) : |((roundHalfEven q : ℤ) : ℚ) - q| ≤ 1 / 2 := by
  have h0 : ((⌊q⌋ : ℤ) : ℚ) ≤ q := Int.floor_le q
  have h1 : q < (⌊q⌋ : ℤ) + 1 := Int.lt_floor_add_one q
  rw [roundHalfEven]
  split_ifs with hc1 hc2 hc3 <;> rw [abs_le] <;> constructor <;> push_cast <;> linarith

/-- Python 3-decimal rounding differs from the input by at most `1/2000`. -/
theorem pyRound3_close (q : ℚ) : |pyRound3 q - q| ≤ 1 / 2000 := by
  have h := roundHalfEven_close (1000 * q)
  rw [abs_le] at h ⊢
  rw [pyRound3]
  constructor <;> [linarith [h.1]; linarith [h.2]]

/-- Rounding an integer-valued rational is the identity; stated for 1. -/
theorem pyRound3_one : pyRound3 1 = 1 := by
  have hf : (⌊(1000 : ℚ) * 1⌋ : ℤ) = 1000 := by norm_num
  rw [pyRound3, roundHalfEven]
  rw [hf]
  norm_num

end Foundever

namespace Foundever.SlideLibrary

/-- C10: for every manager state and `max_per_section`, calling
`select_slides_for_proposal` with the empty sections list behaves
identically to calling it with `sections=None`: the falsy empty list is
replaced by all nine backend sections. -/
theorem claim_C10_select_empty_sections_eq_none
    (m : Manager) (max_per_section : Nat) :
    selectSlidesOp m (some []) max_per_section =
      selectSlidesOp m none max_per_section := rfl

end Foundever.SlideLibrary

namespace Foundever.PptxBuilder

open Foundever.Examples

/-- C3 (divergence witness): on a deck whose layout list is
["Main Content", "Title Slide"], `find_layout_by_name("content")`
returns index 0, yet `add_section_slide` adds the slide under the
layout at index 1 ("Title Slide"): the Python expression
`find_layout_by_name("content") or 1` treats the falsy index 0 as
"not found" and falls back to the second layout, contradicting the
documented preference for the matching "content" layout. -/
theorem claim_C3_content_layout_at_index_zero_skipped :
    find_layout_by_name builder1 "content" = some 0 ∧
    ((add_section_slide builder1 contentP1).1.prs.map
      (fun p => p.slides.map (fun s => s.layout_name))) = some ["Title Slide"] ∧
    (add_section_slide builder1 contentP1).2 = .ok 0 :=
  ⟨rfl, rfl, rfl⟩

/-- C6: cloning a slide with a source index at or beyond the source
slide count fails with the out-of-range error raised before any
mutation: the builder (in particular its slide count and its open
presentation) is returned unchanged. -/
theorem claim_C6_out_of_range_clone_error_unchanged
    (b : Builder) (prs : Presentation) (source : List Slide) (idx : ℤ)
    (napp : Option String) (hp : b.prs = some prs)
    (hge : (source.length : ℤ) ≤ idx) :
    (add_slide_from_library b source idx napp).1 = b ∧
    (add_slide_from_library b source idx napp).1.slide_count = b.slide_count ∧
    (add_slide_from_library b source idx napp).2 =
      .error ("Source has " ++ toString source.length ++
              " slides, requested index " ++ toString idx) := by
  simp only [add_slide_from_library, hp, clone_slide_from_file, if_pos hge]
  refine ⟨?_, ?_, ?_⟩ <;> first | rfl | trivial

/-- C6 witness: requesting source index 5 of a three-slide source file
errors out and leaves the builder untouched. -/
theorem claim_C6_witness :
    builder1.prs = some deck1 ∧ ((sourceSlides.length : ℤ) ≤ 5) ∧
    ((add_slide_from_library builder1 sourceSlides 5 none).1 = builder1 ∧
     (add_slide_from_library builder1 sourceSlides 5 none).1.slide_count =
       builder1.slide_count ∧
     (add_slide_from_library builder1 sourceSlides 5 none).2 =
       .error ("Source has " ++ toString sourceSlides.length ++
               " slides, requested index " ++ toString (5 : ℤ))) :=
  ⟨rfl, by decide,
   claim_C6_out_of_range_clone_error_unchanged builder1 deck1 sourceSlides 5 none
     rfl (by decide)⟩

/-- C9: a negative source index in [-n, -1] passes the range check
(which only rejects indices ≥ n) and clones the slide counted from the
end of the source deck; the call succeeds, the slide count grows by
one, and the appended slide carries the shapes of the source slide at
position n - |idx|. -/
theorem claim_C9_negative_index_clones_from_end
    (b : Builder) (prs : Presentation) (source : List Slide) (idx : ℤ)
    (napp : Option String)
    (hp : b.prs = some prs) (hl : prs.layouts ≠ [])
    (hlo : -(source.length : ℤ) ≤ idx) (hhi : idx < 0) :
    ∃ src slide prs',
      source.get? (source.length - (-idx).toNat) = some src ∧
      (add_slide_from_library b source idx napp).2 = .ok b.slide_count ∧
      (add_slide_from_library b source idx napp).1.slide_count = b.slide_count + 1 ∧
      (add_slide_from_library b source idx napp).1.prs = some prs' ∧
      prs'.slides.getLast? = some slide ∧
      slide.shapes = src.shapes := by
  have hnge : ¬ ((source.length : ℤ) ≤ idx) := by omega
  have hneg : ¬ (0 ≤ idx) := by omega
  have hle : (-idx) ≤ (source.length : ℤ) := by omega
  have hidx : source.length - (-idx).toNat < source.length := by omega
  have hpy : pyIndex source idx = source.get? (source.length - (-idx).toNat) := by
    simp only [pyIndex, if_neg hneg, if_pos hle]
  obtain ⟨src, hsrc⟩ : ∃ src, source.get? (source.length - (-idx).toNat) = some src := by
    rw [List.get?_eq_get hidx]
    exact ⟨_, rfl⟩
  obtain ⟨lay, hlay⟩ : ∃ lay,
      (match prs.layouts.find? (fun l => strContains (strLower l.name) "blank") with
        | some l => some l
        | none => prs.layouts.getLast?) = some lay := by
    cases hf : prs.layouts.find? (fun l => strContains (strLower l.name) "blank") with
    | some l => exact ⟨l, rfl⟩
    | none =>
        obtain ⟨l, hgl⟩ := Option.isSome_iff_exists.mp
          (List.getLast?_isSome.mpr hl)
        exact ⟨l, by simp [hgl]⟩
  cases napp with
  | none =>
      simp only [add_slide_from_library, hp, clone_slide_from_file, if_neg hnge, hpy,
        hsrc, hlay]
      exact ⟨src, _, _, rfl, trivial, trivial, rfl, List.getLast?_concat _, rfl⟩
  | some app =>
      simp only [add_slide_from_library, hp, clone_slide_from_file, if_neg hnge, hpy,
        hsrc, hlay]
      exact ⟨src, _, _, rfl, trivial, trivial, rfl, List.getLast?_concat _, rfl⟩

/-- On an active deck with a nonempty layout list, `add_section_slide`
always succeeds: it returns the previous slide count, increments the
counter, appends the section type, and keeps the layout list. -/
theorem add_section_slide_ok (b : Builder) (prs : Presentation) (c : SlideContent)
    (hp : b.prs = some prs) (hl : prs.layouts ≠ []) :
    ∃ prs' : Presentation,
      add_section_slide b c =
        ({ b with prs := some prs'
                  slide_count := b.slide_count + 1
                  sections_added := b.sections_added ++ [c.section_type] },
         .ok b.slide_count) ∧
      prs'.layouts = prs.layouts := by
  have hn : 0 < prs.layouts.length := List.length_pos.mpr hl
  set idx0 := pyOrNat (find_layout_by_name b "content") 1 with hidx0
  set idx := if prs.layouts.length ≤ idx0 then min 1 (prs.layouts.length - 1) else idx0
    with hidx
  have hlt : idx < prs.layouts.length := by
    rw [hidx]
    split
    · omega
    · omega
  obtain ⟨lay, hget⟩ : ∃ lay, prs.layouts.get? idx = some lay := by
    rw [List.get?_eq_get hlt]
    exact ⟨_, rfl⟩
  simp only [add_section_slide, hp, ← hidx0, ← hidx, add_slide_from_layout, hget]
  exact ⟨_, rfl, rfl⟩

/-- C9 witness: cloning with index -1 from a three-slide source deck
succeeds and picks up the shapes of the last source slide. -/
theorem claim_C9_witness :
    builder1.prs = some deck1 ∧ deck1.layouts ≠ [] ∧
    (-(sourceSlides.length : ℤ) ≤ -1) ∧ ((-1 : ℤ) < 0) ∧
    (∃ src slide prs',
      sourceSlides.get? (sourceSlides.length - ((-(-1) : ℤ)).toNat) = some src ∧
      (add_slide_from_library builder1 sourceSlides (-1) none).2 =
        .ok builder1.slide_count ∧
      (add_slide_from_library builder1 sourceSlides (-1) none).1.slide_count =
        builder1.slide_count + 1 ∧
      (add_slide_from_library builder1 sourceSlides (-1) none).1.prs = some prs' ∧
      prs'.slides.getLast? = some slide ∧
      slide.shapes = src.shapes) :=
  ⟨rfl, by decide, by decide, by decide,
   claim_C9_negative_index_clones_from_end builder1 deck1 sourceSlides (-1) none
     rfl (by decide) (by decide) (by decide)⟩

/-- C2 (divergence witness): after adding two section slides with the
same section type "pricing" to a fresh builder, `get_build_summary`
reports `sections_added = ["pricing", "pricing"]`: duplicates are NOT
collapsed (the distinct type "pricing" appears twice, refuting the
claim that each distinct section type appears exactly once). -/
theorem claim_C2_counterexample :
    (get_build_summary (add_sections builder1 [contentP1, contentP2]).1).2.1 =
      ["pricing", "pricing"] ∧
    ((get_build_summary (add_sections builder1 [contentP1, contentP2]).1).2.1).count
      "pricing" = 2 := by
  refine ⟨?_, ?_⟩ <;> rfl

/-- C2 (amended): for every builder with an active deck holding at
least one layout, a sequence of `add_section_slide` calls succeeds and
leaves `sections_added` equal to the full list of section types in call
order (duplicates retained); `get_build_summary` returns exactly that
list, and its `sections_missing` is the list of the nine canonical
sections that do not occur among the added types. -/
theorem claim_C2_amended (b : Builder) (prs : Presentation) (cs : List SlideContent)
    (hp : b.prs = some prs) (hl : prs.layouts ≠ []) :
    ∃ b' : Builder,
      add_sections b cs = (b', .ok ()) ∧
      b'.sections_added = b.sections_added ++ cs.map (fun c => c.section_type) ∧
      (get_build_summary b').2.1 =
        b.sections_added ++ cs.map (fun c => c.section_type) ∧
      (get_build_summary b').2.2 =
        (SECTION_DISPLAY_NAMES.map Prod.fst).filter
          (fun s => !(b.sections_added ++ cs.map (fun c => c.section_type)).contains s) := by
  induction cs generalizing b prs with
  | nil =>
      exact ⟨b, rfl, by simp, by simp [get_build_summary], by simp [get_build_summary]⟩
  | cons c cs ih =>
      obtain ⟨prs', heq, hlay⟩ := add_section_slide_ok b prs c hp hl
      have hl' : prs'.layouts ≠ [] := by rw [hlay]; exact hl
      obtain ⟨b', h1, h2, h3, h4⟩ :=
        ih { b with prs := some prs'
                    slide_count := b.slide_count + 1
                    sections_added := b.sections_added ++ [c.section_type] }
          prs' rfl hl'
      refine ⟨b', ?_, ?_, ?_, ?_⟩
      · rw [add_sections, heq]
        exact h1
      · rw [h2]
        simp
      · rw [h3]
        simp [get_build_summary]
      · rw [h4]
        simp

/-- C2 witness: instantiating the amended claim on a fresh builder with
one "pricing" content item. -/
theorem claim_C2_witness :
    builder1.prs = some deck1 ∧ deck1.layouts ≠ [] ∧
    (∃ b' : Builder,
      add_sections builder1 [contentP1] = (b', .ok ()) ∧
      b'.sections_added =
        builder1.sections_added ++ [contentP1].map (fun c => c.section_type) ∧
      (get_build_summary b').2.1 =
        builder1.sections_added ++ [contentP1].map (fun c => c.section_type) ∧
      (get_build_summary b').2.2 =
        (SECTION_DISPLAY_NAMES.map Prod.fst).filter
          (fun s => !(builder1.sections_added ++
            [contentP1].map (fun c => c.section_type)).contains s)) :=
  ⟨rfl, by decide,
   claim_C2_amended builder1 deck1 [contentP1] rfl (by decide)⟩

end Foundever.PptxBuilder

namespace Foundever.SlideLibrary

open Foundever.Examples

/-- C8: a slide whose combined classification text (theme name plus
text, with the empty-text fallback to the theme name) contains no
keyword of any label lexicon classifies as `unclassified` with
confidence exactly 0 and an empty matched-keyword list. -/
theorem claim_C8_no_keyword_unclassified (text theme_name : String)
    (h : ∀ p ∈ LABEL_KEYWORDS, ∀ kw ∈ p.2,
      strContains (combinedText text theme_name) (strLower kw) = false) :
    classify_text text theme_name = ("unclassified", 0, []) := by
  have hsc : classifyScores text theme_name = [] := by
    rw [classifyScores]
    rw [List.filterMap_eq_nil]
    intro p hp
    have hm : matchedKeywords p.2 (combinedText text theme_name) = [] := by
      rw [matchedKeywords]
      rw [List.filter_eq_nil]
      intro kw hkw
      simp [h p hp kw hkw]
    simp [hm]
  simp [classify_text, hsc, pickBest]

/-- C8 witness: a slide with text "zzz qqq" in theme "xyz" matches no
lexicon keyword and classifies as unclassified with confidence 0. -/
theorem claim_C8_witness :
    (∀ p ∈ LABEL_KEYWORDS, ∀ kw ∈ p.2,
      strContains (combinedText "zzz qqq" "xyz") (strLower kw) = false) ∧
    classify_text "zzz qqq" "xyz" = ("unclassified", 0, []) :=
  ⟨by decide, claim_C8_no_keyword_unclassified "zzz qqq" "xyz" (by decide)⟩

/-- C1 (divergence witness): on a fresh manager whose library path
exists but on which `index()` was never called, every search/retrieval
operation returns a result rather than failing: there is no
"not yet indexed" error condition in the code, because
`_ensure_indexed` silently calls `index()`. -/
theorem claim_C1_counterexample :
    manager1.indexed = false ∧
    isErr (searchOp manager1 "budget" 10 none none none) = false ∧
    isErr (getSlidesForSectionOp manager1 "executive_summary" 20) = false ∧
    isErr (getSlidesForLabelOp manager1 "pricing" 20) = false ∧
    isErr (getThemeSlidesOp manager1 "Ops") = false ∧
    isErr (listThemesOp manager1) = false ∧
    isErr (getLibraryStatsOp manager1) = false ∧
    isErr (selectSlidesOp manager1 none 5) = false := by
  refine ⟨rfl, ?_, ?_, ?_, ?_, ?_, ?_, ?_⟩ <;> rfl

/-- C1 (amended): calling any search/retrieval operation on a manager
that has never been indexed does not raise a distinct "not yet indexed"
error; each operation first runs `index()` lazily and then behaves
exactly like the same operation on the freshly indexed manager state.
The only possible failure is the failure of `index()` itself
(missing library path). -/
theorem claim_C1_amended (m : Manager) (dirs : List ThemeDir)
    (query theme sec label : String) (limit mps : Nat)
    (tf lf sf : Option String) (sections : Option (List String))
    (hni : m.indexed = false) (hfs : m.fs = some dirs) :
    ∃ m' stats, indexOp m = .ok (m', stats) ∧
      searchOp m query limit tf lf sf =
        .ok (m', searchRaw m'.slides query limit tf lf sf) ∧
      getSlidesForSectionOp m sec limit =
        .ok (m', slidesForSection m'.slides sec limit) ∧
      getSlidesForLabelOp m label limit =
        .ok (m', slidesForLabel m'.slides label limit) ∧
      getThemeSlidesOp m theme =
        .ok (m', m'.slides.filter fun s => strLower s.theme == strLower theme) ∧
      listThemesOp m =
        .ok (m', sortDescBy (fun a b => b.slide_count < a.slide_count)
          (m'.themes.map Prod.snd)) ∧
      (∃ ls, getLibraryStatsOp m = .ok (m', ls)) ∧
      selectSlidesOp m sections mps = .ok (m', selectSlides m'.slides sections mps) := by
  have hio : indexOp m = .ok
      ({ m with slides := (buildIndex m.library_path dirs).1
                themes := (buildIndex m.library_path dirs).2
                indexed := true },
       { total_slides := (buildIndex m.library_path dirs).1.length
         total_themes := (buildIndex m.library_path dirs).2.length
         themes := (buildIndex m.library_path dirs).2.map fun p => (p.1, p.2.slide_count)
         label_distribution := globalLabelDistribution (buildIndex m.library_path dirs).1
         section_distribution :=
           globalSectionDistribution (buildIndex m.library_path dirs).1 }) := by
    simp only [indexOp, hfs]
  have hens : ensureIndexed m = .ok
      { m with slides := (buildIndex m.library_path dirs).1
               themes := (buildIndex m.library_path dirs).2
               indexed := true } := by
    rw [ensureIndexed, if_neg (by simp [hni]), hio]
    rfl
  refine ⟨_, _, hio, ?_, ?_, ?_, ?_, ?_, ?_, ?_⟩
  · simp only [searchOp, hens, Except.map]
  · simp only [getSlidesForSectionOp, hens, Except.map]
  · simp only [getSlidesForLabelOp, hens, Except.map]
  · simp only [getThemeSlidesOp, hens, Except.map]
  · simp only [listThemesOp, hens, Except.map]
  · refine ⟨{ library_path := m.library_path
              total_slides := (buildIndex m.library_path dirs).1.length
              total_themes := (buildIndex m.library_path dirs).2.length
              themes := (buildIndex m.library_path dirs).2.map fun p =>
                (p.1, p.2.slide_count, p.2.label_distribution, p.2.section_distribution)
              global_label_distribution :=
                globalLabelDistribution (buildIndex m.library_path dirs).1
              global_section_distribution :=
                globalSectionDistribution (buildIndex m.library_path dirs).1 }, ?_⟩
    simp only [getLibraryStatsOp, hens, Except.map]
  · simp only [selectSlidesOp, hens, Except.map]

/-- C1 witness: instantiating the amended claim on the fresh manager of
the concrete one-theme library. -/
theorem claim_C1_witness :
    manager1.indexed = false ∧ manager1.fs = some library1 ∧
    (∃ m' stats, indexOp manager1 = .ok (m', stats) ∧
      searchOp manager1 "budget" 10 none none none =
        .ok (m', searchRaw m'.slides "budget" 10 none none none) ∧
      getSlidesForSectionOp manager1 "executive_summary" 10 =
        .ok (m', slidesForSection m'.slides "executive_summary" 10) ∧
      getSlidesForLabelOp manager1 "pricing" 10 =
        .ok (m', slidesForLabel m'.slides "pricing" 10) ∧
      getThemeSlidesOp manager1 "Ops" =
        .ok (m', m'.slides.filter fun s => strLower s.theme == strLower "Ops") ∧
      listThemesOp manager1 =
        .ok (m', sortDescBy (fun a b => b.slide_count < a.slide_count)
          (m'.themes.map Prod.snd)) ∧
      (∃ ls, getLibraryStatsOp manager1 = .ok (m', ls)) ∧
      selectSlidesOp manager1 none 5 = .ok (m', selectSlides m'.slides none 5)) :=
  ⟨rfl, rfl,
   claim_C1_amended manager1 library1 "budget" "Ops" "executive_summary" "pricing"
     10 5 none none none none rfl rfl⟩

end Foundever.SlideLibrary

namespace Foundever.SlideLibrary

open Foundever.Examples

/-- A fold that at each step keeps either the accumulator or the new
element lands on a member of the starting element and the list. -/
theorem foldl_choice_mem (f : α → α → α) (hsel : ∀ a b, f a b = a ∨ f a b = b) :
    ∀ (l : List α) (a : α), l.foldl f a ∈ a :: l := by
  intro l
  induction l with
  | nil => intro a; simp
  | cons y ys ih =>
      intro a
      rw [List.foldl_cons]
      rcases hsel a y with h | h <;> rw [h]
      · have h2 := ih a
        simp only [List.mem_cons] at h2 ⊢
        tauto
      · have h2 := ih y
        simp only [List.mem_cons] at h2 ⊢
        tauto

/-- The entry selected by `max(scores, key=...)` is one of the scores. -/
theorem pickBest_mem {l : List (String × ℚ × List String)}
    {x : String × ℚ × List String} (h : pickBest l = some x) : x ∈ l := by
  cases l with
  | nil => simp [pickBest] at h
  | cons a as =>
      rw [pickBest] at h
      injection h with h
      rw [← h]
      exact foldl_choice_mem _
        (fun a b => by by_cases hc : a.2.1 < b.2.1 <;> simp [hc]) as a

/-- Characterisation of a candidate built by `_classify_text`: it comes
from a lexicon entry, its matched-keyword list is nonempty, and its
score is the boosted clamped match ratio. -/
theorem mem_classifyScores {text theme_name : String}
    {x : String × ℚ × List String} (h : x ∈ classifyScores text theme_name) :
    ∃ p ∈ LABEL_KEYWORDS, x.1 = p.1 ∧
      x.2.2 = matchedKeywords p.2 (combinedText text theme_name) ∧
      x.2.2 ≠ [] ∧
      x.2.1 = labelScore x.2.2.length p.2.length (themeMatched p.2 theme_name) := by
  rw [classifyScores] at h
  obtain ⟨p, hp, hf⟩ := List.mem_filterMap.mp h
  refine ⟨p, hp, ?_⟩
  dsimp only at hf
  split at hf
  · exact absurd hf (by simp)
  · rename_i hne
    injection hf with hf
    rw [← hf]
    refine ⟨rfl, rfl, ?_, rfl⟩
    simpa [List.isEmpty_iff] using hne

/-- The label returned by `_classify_text` is always a member of the
fixed primary-label enum. -/
theorem classify_text_label_mem (text theme_name : String) :
    (classify_text text theme_name).1 ∈ PRIMARY_LABELS := by
  cases hpb : pickBest (classifyScores text theme_name) with
  | none => simp [classify_text, hpb, PRIMARY_LABELS]
  | some x =>
      obtain ⟨p, hp, h1, _⟩ := mem_classifyScores (pickBest_mem hpb)
      have hall : ∀ q ∈ LABEL_KEYWORDS, q.1 ∈ PRIMARY_LABELS := by decide
      simp only [classify_text, hpb]
      rw [show (x.1, pyRound3 x.2.1, x.2.2).1 = x.1 from rfl] at *
      exact h1 ▸ hall p hp

/-- The section returned by `_resolve_section` is always a member of
the fixed nine-section enum. -/
theorem resolve_section_mem (primary_label text : String) :
    resolve_section primary_label text ∈ BACKEND_SECTIONS := by
  rw [resolve_section]
  split
  · cases hlk : LABEL_TO_PRIMARY_SECTION.lookup primary_label with
    | none => simp [hlk, BACKEND_SECTIONS]
    | some v =>
        have hv := lookup_mem_pairs hlk
        have hall : ∀ q ∈ LABEL_TO_PRIMARY_SECTION, q.2 ∈ BACKEND_SECTIONS := by decide
        simpa [hlk] using hall _ hv
  · cases hf : SECTION_REFINEMENT.find? (fun e =>
        2 ≤ (e.2.1.filter fun kw =>
          strContains (strLower text) (strLower kw)).length) with
    | none => simp [hf, BACKEND_SECTIONS]
    | some e =>
        have he := List.mem_of_find?_eq_some hf
        have hall : ∀ q ∈ SECTION_REFINEMENT, q.2.2 ∈ BACKEND_SECTIONS := by decide
        simpa [hf] using hall _ he

/-- Every slide entry produced by the `index()` loop carries a backend
section from the nine-section enum and a primary label from the label
enum. -/
theorem buildIndex_entries (lp : String) (dirs : List ThemeDir) :
    ∀ e ∈ (buildIndex lp dirs).1,
      e.backend_section ∈ BACKEND_SECTIONS ∧ e.primary_label ∈ PRIMARY_LABELS := by
  suffices aux : ∀ (dirs : List ThemeDir) (acc : List SlideEntry × List (String × ThemeInfo)),
      (∀ e ∈ acc.1, e.backend_section ∈ BACKEND_SECTIONS ∧ e.primary_label ∈ PRIMARY_LABELS) →
      ∀ e ∈ (dirs.foldl (indexStep lp) acc).1,
        e.backend_section ∈ BACKEND_SECTIONS ∧ e.primary_label ∈ PRIMARY_LABELS by
    exact aux dirs ([], []) (by simp)
  intro dirs
  induction dirs with
  | nil => intro acc hacc; simpa using hacc
  | cons d ds ih =>
      intro acc hacc
      rw [List.foldl_cons]
      apply ih
      intro e he
      rcases List.mem_append.mp he with h | h
      · exact hacc e h
      · have h2 : ∃ i raw, (i, raw) ∈ d.slides.enum ∧
            buildEntry lp d.name (acc.1.length + 1 + i) raw = e := by
          simpa [indexStep, indexTheme] using h
        obtain ⟨i, raw, _, hpe⟩ := h2
        rw [← hpe]
        exact ⟨resolve_section_mem _ _, classify_text_label_mem _ _⟩

/-- The `index()` loop produces one entry per discovered file. -/
theorem buildIndex_length (lp : String) (dirs : List ThemeDir) :
    (buildIndex lp dirs).1.length = (dirs.map (fun d => d.slides.length)).sum := by
  suffices aux : ∀ (dirs : List ThemeDir) (acc : List SlideEntry × List (String × ThemeInfo)),
      (dirs.foldl (indexStep lp) acc).1.length =
        acc.1.length + (dirs.map (fun d => d.slides.length)).sum by
    simpa using aux dirs ([], [])
  intro dirs
  induction dirs with
  | nil => intro acc; simp
  | cons d ds ih =>
      intro acc
      rw [List.foldl_cons, ih]
      simp [indexStep, indexTheme]
      omega

/-- Setting a fresh key on an insertion-ordered dict appends the pair. -/
theorem dictSet_fresh {d : List (String × α)} {k : String} {v : α}
    (h : ∀ p ∈ d, p.1 ≠ k) : dictSet d k v = d ++ [(k, v)] := by
  have hc : d.any (fun p => p.1 == k) = false := by
    rw [List.any_eq_false]
    intro p hp
    simpa using h p hp
  rw [dictSet, hc]
  simp

/-- Unfolding equation for one step of the `index()` loop. -/
theorem indexStep_eq (lp : String) (acc : List SlideEntry × List (String × ThemeInfo))
    (d : ThemeDir) :
    indexStep lp acc d =
      (acc.1 ++ indexTheme lp acc.1.length d,
       if (indexTheme lp acc.1.length d).isEmpty then acc.2
       else dictSet acc.2 d.name
         (buildThemeInfo lp d.name (indexTheme lp acc.1.length d))) := rfl

/-- When theme directory names are distinct (as on a real filesystem),
the total number of indexed entries equals the sum of the per-theme
slide counts stored in the theme map. -/
theorem buildIndex_theme_sum (lp : String) (dirs : List ThemeDir)
    (hnd : (dirs.map ThemeDir.name).Nodup) :
    (buildIndex lp dirs).1.length =
      ((buildIndex lp dirs).2.map (fun p => p.2.slide_count)).sum := by
  suffices aux : ∀ (dirs : List ThemeDir) (acc : List SlideEntry × List (String × ThemeInfo)),
      (dirs.map ThemeDir.name).Nodup →
      (∀ k ∈ acc.2.map Prod.fst, k ∉ dirs.map ThemeDir.name) →
      acc.1.length = (acc.2.map (fun p => p.2.slide_count)).sum →
      (dirs.foldl (indexStep lp) acc).1.length =
        ((dirs.foldl (indexStep lp) acc).2.map (fun p => p.2.slide_count)).sum by
    exact aux dirs ([], []) hnd (by simp) (by simp)
  intro dirs
  induction dirs with
  | nil => intro acc _ _ h; simpa using h
  | cons d ds ih =>
      intro acc hnd hdisj hinv
      rw [List.foldl_cons]
      have hnd' : (ds.map ThemeDir.name).Nodup := by
        rw [List.map_cons, List.nodup_cons] at hnd
        exact hnd.2
      have hdname : d.name ∉ ds.map ThemeDir.name := by
        rw [List.map_cons, List.nodup_cons] at hnd
        exact hnd.1
      by_cases hts : (indexTheme lp acc.1.length d).isEmpty = true
      · have hnil : indexTheme lp acc.1.length d = [] := by
          simpa [List.isEmpty_iff] using hts
        apply ih _ hnd'
        · intro k hk
          rw [indexStep_eq, if_pos hts] at hk
          have := hdisj k hk
          simp only [List.map_cons, List.mem_cons] at this
          tauto
        · rw [indexStep_eq, if_pos hts, hnil]
          simpa using hinv
      · have hfresh : ∀ p ∈ acc.2, p.1 ≠ d.name := by
          intro p hp hcon
          have := hdisj p.1 (List.mem_map_of_mem Prod.fst hp)
          simp only [List.map_cons, List.mem_cons] at this
          tauto
        apply ih _ hnd'
        · intro k hk
          rw [indexStep_eq, if_neg hts, dictSet_fresh hfresh] at hk
          simp only [List.map_append, List.mem_append, List.map_cons,
            List.map_nil, List.mem_cons, List.not_mem_nil, or_false] at hk
          rcases hk with hk | hk
          · have := hdisj k hk
            simp only [List.map_cons, List.mem_cons] at this
            tauto
          · rw [hk]
            exact hdname
        · rw [indexStep_eq, if_neg hts, dictSet_fresh hfresh]
          have hbt : (buildThemeInfo lp d.name (indexTheme lp acc.1.length d)).slide_count =
              (indexTheme lp acc.1.length d).length := rfl
          simp only [List.length_append, List.map_append, List.sum_append,
            List.map_cons, List.map_nil, List.sum_cons, List.sum_nil, hbt]
          omega

/-- C7: after a successful `index()` of a library whose theme
directories bear distinct names and hold at least one slide file,
`get_library_stats()` reports a positive `total_slides` equal to the
sum of the per-theme slide counts, and every indexed entry carries a
backend section from the fixed nine-section enum and a primary label
from the fixed label enum. -/
theorem claim_C7_stats_total_and_enums (m : Manager) (dirs : List ThemeDir)
    (hfs : m.fs = some dirs)
    (hnd : (dirs.map ThemeDir.name).Nodup)
    (hne : ∃ d ∈ dirs, d.slides ≠ []) :
    ∃ m' stats ls, indexOp m = .ok (m', stats) ∧
      getLibraryStatsOp m' = .ok (m', ls) ∧
      0 < ls.total_slides ∧
      ls.total_slides = (ls.themes.map (fun t => t.2.1)).sum ∧
      ∀ e ∈ m'.slides,
        e.backend_section ∈ BACKEND_SECTIONS ∧ e.primary_label ∈ PRIMARY_LABELS := by
  have hio : indexOp m = .ok
      ({ m with slides := (buildIndex m.library_path dirs).1
                themes := (buildIndex m.library_path dirs).2
                indexed := true },
       { total_slides := (buildIndex m.library_path dirs).1.length
         total_themes := (buildIndex m.library_path dirs).2.length
         themes := (buildIndex m.library_path dirs).2.map fun p => (p.1, p.2.slide_count)
         label_distribution := globalLabelDistribution (buildIndex m.library_path dirs).1
         section_distribution :=
           globalSectionDistribution (buildIndex m.library_path dirs).1 }) := by
    simp only [indexOp, hfs]
  refine ⟨_, _,
    { library_path := m.library_path
      total_slides := (buildIndex m.library_path dirs).1.length
      total_themes := (buildIndex m.library_path dirs).2.length
      themes := (buildIndex m.library_path dirs).2.map fun p =>
        (p.1, p.2.slide_count, p.2.label_distribution, p.2.section_distribution)
      global_label_distribution := globalLabelDistribution (buildIndex m.library_path dirs).1
      global_section_distribution :=
        globalSectionDistribution (buildIndex m.library_path dirs).1 },
    hio, ?_, ?_, ?_, ?_⟩
  · simp [getLibraryStatsOp, ensureIndexed, Except.map]
  · obtain ⟨d, hd, hds⟩ := hne
    have hpos : 0 < d.slides.length := List.length_pos.mpr hds
    have hle : d.slides.length ≤ (dirs.map (fun d => d.slides.length)).sum :=
      List.single_le_sum (fun x _ => Nat.zero_le x) _
        (List.mem_map_of_mem (fun d => d.slides.length) hd)
    have hbl := buildIndex_length m.library_path dirs
    dsimp only
    omega
  · have hsum := buildIndex_theme_sum m.library_path dirs hnd
    dsimp only
    simp only [List.map_map]
    exact hsum
  · exact buildIndex_entries m.library_path dirs

/-- C7 witness: the concrete one-theme library indexes to positive
totals matching the per-theme sum, with enum-valued classifications. -/
theorem claim_C7_witness :
    manager1.fs = some library1 ∧ (library1.map ThemeDir.name).Nodup ∧
    (∃ d ∈ library1, d.slides ≠ []) ∧
    (∃ m' stats ls, indexOp manager1 = .ok (m', stats) ∧
      getLibraryStatsOp m' = .ok (m', ls) ∧
      0 < ls.total_slides ∧
      ls.total_slides = (ls.themes.map (fun t => t.2.1)).sum ∧
      ∀ e ∈ m'.slides,
        e.backend_section ∈ BACKEND_SECTIONS ∧ e.primary_label ∈ PRIMARY_LABELS) :=
  ⟨rfl, by decide, by decide,
   claim_C7_stats_total_and_enums manager1 library1 rfl (by decide) (by decide)⟩

end Foundever.SlideLibrary

namespace Foundever.SlideLibrary

open Foundever.Examples

/-- A slide scored by the `search()` loop body passed the filters and
was scored by the filter-independent scoring code. -/
theorem scoreSlide_eq_some {terms : List String} {s : SlideEntry}
    {tf lf sf : Option String} {r : SlideSearchResult}
    (h : scoreSlide terms s tf lf sf = some r) :
    passesFilters s tf lf sf = true ∧ scoreCore terms s = some r := by
  rw [scoreSlide] at h
  split at h
  · exact ⟨by assumption, h⟩
  · exact absurd h (by simp)

/-- A search result produced by the scoring code carries the scored
slide itself. -/
theorem scoreCore_slide {terms : List String} {s : SlideEntry} {r : SlideSearchResult}
    (h : scoreCore terms s = some r) : r.slide = s := by
  rw [scoreCore] at h
  dsimp only at h
  split at h
  · exact absurd h (by simp)
  · injection h with h
    rw [← h]

/-- A conjunction guard that holds while its first component is true
forces its second component false. -/
theorem not_and_true_of {a b : Bool} (h : (!(a && b)) = true) (ha : a = true) :
    b = false := by
  subst ha
  cases b
  · rfl
  · simp at h

/-- What passing the three filter guards means for each supplied
(truthy) filter. -/
theorem passesFilters_spec {s : SlideEntry} {tf lf sf : Option String}
    (h : passesFilters s tf lf sf = true) :
    (optTruthy tf = true → strLower s.theme = strLower (tf.getD "")) ∧
    (optTruthy lf = true → s.primary_label = lf.getD "") ∧
    (optTruthy sf = true → s.backend_section = sf.getD "") := by
  rw [passesFilters, Bool.and_eq_true, Bool.and_eq_true] at h
  obtain ⟨⟨h1, h2⟩, h3⟩ := h
  refine ⟨fun ht => ?_, fun ht => ?_, fun ht => ?_⟩
  · exact eq_of_beq (by simpa [bne] using not_and_true_of h1 ht)
  · exact eq_of_beq (by simpa [bne] using not_and_true_of h2 ht)
  · exact eq_of_beq (by simpa [bne] using not_and_true_of h3 ht)

/-- Removing any one supplied filter preserves passing the guards. -/
theorem passesFilters_drop {s : SlideEntry} {tf lf sf : Option String}
    (h : passesFilters s tf lf sf = true) :
    passesFilters s none lf sf = true ∧ passesFilters s tf none sf = true ∧
    passesFilters s tf lf none = true := by
  rw [passesFilters, Bool.and_eq_true, Bool.and_eq_true] at h
  obtain ⟨⟨h1, h2⟩, h3⟩ := h
  refine ⟨?_, ?_, ?_⟩ <;>
    rw [passesFilters] <;>
    simp only [optTruthy, Bool.false_and, Bool.not_false, Bool.true_and,
      Bool.and_true] <;>
    rw [Bool.and_eq_true]
  · exact ⟨h2, h3⟩
  · exact ⟨h1, h3⟩
  · exact ⟨h1, h2⟩

/-- Every result returned by `search()` comes from an indexed slide
that passed all the supplied filters. -/
theorem mem_searchRaw {slides : List SlideEntry} {query : String} {limit : Nat}
    {tf lf sf : Option String} {r : SlideSearchResult}
    (h : r ∈ searchRaw slides query limit tf lf sf) :
    ∃ s ∈ slides, passesFilters s tf lf sf = true ∧
      scoreCore (queryTerms query) s = some r := by
  rw [searchRaw] at h
  have h1 := List.take_subset _ _ h
  rw [mem_sortDescBy] at h1
  obtain ⟨s, hs, hsc⟩ := List.mem_filterMap.mp h1
  obtain ⟨hpf, hcore⟩ := scoreSlide_eq_some hsc
  exact ⟨s, hs, hpf, hcore⟩

/-- Conversely, when the limit does not truncate (limit at least the
library size), every slide passing the filters with a nonzero match
shows up in the results. -/
theorem mem_searchRaw_of_core {slides : List SlideEntry} {query : String}
    {limit : Nat} {tf lf sf : Option String} {r : SlideSearchResult} {s : SlideEntry}
    (hs : s ∈ slides) (hpf : passesFilters s tf lf sf = true)
    (hsc : scoreCore (queryTerms query) s = some r)
    (hlim : slides.length ≤ limit) :
    r ∈ searchRaw slides query limit tf lf sf := by
  rw [searchRaw]
  have hmem : r ∈ slides.filterMap
      (fun s => scoreSlide (queryTerms query) s tf lf sf) := by
    refine List.mem_filterMap.mpr ⟨s, hs, ?_⟩
    rw [scoreSlide, if_pos hpf]
    exact hsc
  have hlen : (sortDescBy (fun a b => b.score < a.score)
      (slides.filterMap (fun s => scoreSlide (queryTerms query) s tf lf sf))).length ≤
      limit := by
    rw [length_sortDescBy]
    exact le_trans (List.length_filterMap_le _ _) hlim
  rw [List.take_of_length_le hlen, mem_sortDescBy]
  exact hmem

/-- C4: search filtering is conjunctive — every returned result
satisfies each supplied (truthy) filter — and, provided the limit does
not truncate the result list, removing any one supplied filter
preserves every returned result (the match set can only grow). With a
truncating limit the second part fails (see the counterexample). -/
theorem claim_C4_conjunctive_and_monotone
    (slides : List SlideEntry) (query : String) (limit : Nat)
    (tf lf sf : Option String) (r : SlideSearchResult)
    (h : r ∈ searchRaw slides query limit tf lf sf) :
    ((optTruthy tf = true → strLower r.slide.theme = strLower (tf.getD "")) ∧
     (optTruthy lf = true → r.slide.primary_label = lf.getD "") ∧
     (optTruthy sf = true → r.slide.backend_section = sf.getD "")) ∧
    (slides.length ≤ limit →
      r ∈ searchRaw slides query limit none lf sf ∧
      r ∈ searchRaw slides query limit tf none sf ∧
      r ∈ searchRaw slides query limit tf lf none) := by
  obtain ⟨s, hs, hpf, hsc⟩ := mem_searchRaw h
  have hslide : r.slide = s := scoreCore_slide hsc
  obtain ⟨hn1, hn2, hn3⟩ := passesFilters_drop hpf
  constructor
  · rw [hslide]
    exact passesFilters_spec hpf
  · intro hlim
    exact ⟨mem_searchRaw_of_core hs hn1 hsc hlim,
           mem_searchRaw_of_core hs hn2 hsc hlim,
           mem_searchRaw_of_core hs hn3 hsc hlim⟩

/-- Score value of the full-match, confidence-1 example slide. -/
theorem exampleScoreA : pyRound3 (min (((2:Nat):ℚ)/((2:Nat):ℚ) * (1/2 + 1 * (1/2))) 1) = 1 := by
  have h : (((2:Nat):ℚ)/((2:Nat):ℚ) * (1/2 + 1 * (1/2))) = 1 := by push_cast; norm_num
  rw [h, pyRound3, roundHalfEven]
  norm_num

/-- Score value of the half-match, confidence-0 example slide. -/
theorem exampleScoreB : pyRound3 (min (((1:Nat):ℚ)/((2:Nat):ℚ) * (1/2 + 0 * (1/2))) 1) = 1/4 := by
  have h : (((1:Nat):ℚ)/((2:Nat):ℚ) * (1/2 + 0 * (1/2))) = 1/4 := by push_cast; norm_num
  rw [h]
  have h2 : min ((1:ℚ)/4) 1 = 1/4 := by norm_num
  rw [h2, pyRound3, roundHalfEven]
  norm_num [Int.floor_eq_iff]

/-- The example query tokenises to its two words. -/
theorem exampleQueryTerms : queryTerms "budget plan" = ["budget", "plan"] := rfl

/-- Loop-body value on slide B under the section filter. -/
theorem exampleScoreSlideB_sf :
    scoreSlide ["budget", "plan"] slideB none none (some "delivery_model") =
      some ⟨slideB, 1/4, "Matched: budget"⟩ := by
  have h : scoreSlide ["budget", "plan"] slideB none none (some "delivery_model") =
      some ⟨slideB, pyRound3 (min (((1:Nat):ℚ)/((2:Nat):ℚ) * (1/2 + 0 * (1/2))) 1),
            "Matched: budget"⟩ := rfl
  rw [h, exampleScoreB]

/-- Loop-body value on slide A under the section filter: filtered out. -/
theorem exampleScoreSlideA_sf :
    scoreSlide ["budget", "plan"] slideA none none (some "delivery_model") = none := rfl

/-- Loop-body value on slide B without filters. -/
theorem exampleScoreSlideB :
    scoreSlide ["budget", "plan"] slideB none none none =
      some ⟨slideB, 1/4, "Matched: budget"⟩ := by
  have h : scoreSlide ["budget", "plan"] slideB none none none =
      some ⟨slideB, pyRound3 (min (((1:Nat):ℚ)/((2:Nat):ℚ) * (1/2 + 0 * (1/2))) 1),
            "Matched: budget"⟩ := rfl
  rw [h, exampleScoreB]

/-- Loop-body value on slide A without filters. -/
theorem exampleScoreSlideA :
    scoreSlide ["budget", "plan"] slideA none none none =
      some ⟨slideA, 1, "Matched: budget, plan"⟩ := by
  have h : scoreSlide ["budget", "plan"] slideA none none none =
      some ⟨slideA, pyRound3 (min (((2:Nat):ℚ)/((2:Nat):ℚ) * (1/2 + 1 * (1/2))) 1),
            "Matched: budget, plan"⟩ := rfl
  rw [h, exampleScoreA]

/-- C4 (divergence witness): with `limit = 1`, the section-filtered
search returns exactly slide B, but the same search without the filter
returns exactly slide A: slide B vanished from the returned set when a
filter was removed, so removing a filter can shrink the *returned*
set (the top-limit truncation reorders what survives). -/
theorem claim_C4_counterexample :
    searchRaw [slideA, slideB] "budget plan" 1 none none (some "delivery_model") =
      [⟨slideB, 1/4, "Matched: budget"⟩] ∧
    searchRaw [slideA, slideB] "budget plan" 1 none none none =
      [⟨slideA, 1, "Matched: budget, plan"⟩] := by
  constructor
  · simp only [searchRaw, exampleQueryTerms, List.filterMap_cons, List.filterMap_nil,
      exampleScoreSlideA_sf, exampleScoreSlideB_sf, sortDescBy, List.foldl_cons,
      List.foldl_nil, insDescBy, List.take_succ_cons, List.take_nil, List.take_zero]
  · simp only [searchRaw, exampleQueryTerms, List.filterMap_cons, List.filterMap_nil,
      exampleScoreSlideA, exampleScoreSlideB, sortDescBy, List.foldl_cons,
      List.foldl_nil, insDescBy, decide_eq_true_eq]
    rw [if_neg (by norm_num : ¬((1:ℚ) < 1/4))]
    simp only [List.take_succ_cons, List.take_zero]

/-- Loop-body value on slide A under a matching theme filter. -/
theorem exampleScoreSlideA_tf :
    scoreSlide ["budget", "plan"] slideA (some "Alpha") none none =
      some ⟨slideA, 1, "Matched: budget, plan"⟩ := by
  have h : scoreSlide ["budget", "plan"] slideA (some "Alpha") none none =
      some ⟨slideA, pyRound3 (min (((2:Nat):ℚ)/((2:Nat):ℚ) * (1/2 + 1 * (1/2))) 1),
            "Matched: budget, plan"⟩ := rfl
  rw [h, exampleScoreA]

/-- Membership fact used to discharge the C4 hypothesis concretely. -/
theorem exampleSearchMember :
    (⟨slideA, 1, "Matched: budget, plan"⟩ : SlideSearchResult) ∈
      searchRaw [slideA] "budget plan" 10 (some "Alpha") none none := by
  have h : searchRaw [slideA] "budget plan" 10 (some "Alpha") none none =
      [⟨slideA, 1, "Matched: budget, plan"⟩] := by
    simp only [searchRaw, exampleQueryTerms, List.filterMap_cons, List.filterMap_nil,
      exampleScoreSlideA_tf, sortDescBy, List.foldl_cons, List.foldl_nil, insDescBy,
      List.take_succ_cons, List.take_nil, List.take_zero]
  rw [h]
  exact List.mem_singleton.mpr rfl

/-- C4 witness: instantiating the conjunctive/monotone theorem on a
one-slide library with a supplied theme filter. -/
theorem claim_C4_witness :
    ((⟨slideA, 1, "Matched: budget, plan"⟩ : SlideSearchResult) ∈
      searchRaw [slideA] "budget plan" 10 (some "Alpha") none none) ∧
    (((optTruthy (some "Alpha") = true →
        strLower (⟨slideA, 1, "Matched: budget, plan"⟩ : SlideSearchResult).slide.theme =
          strLower ((some "Alpha").getD "")) ∧
      (optTruthy (none : Option String) = true →
        (⟨slideA, 1, "Matched: budget, plan"⟩ : SlideSearchResult).slide.primary_label =
          (none : Option String).getD "") ∧
      (optTruthy (none : Option String) = true →
        (⟨slideA, 1, "Matched: budget, plan"⟩ : SlideSearchResult).slide.backend_section =
          (none : Option String).getD "")) ∧
     ([slideA].length ≤ 10 →
      (⟨slideA, 1, "Matched: budget, plan"⟩ : SlideSearchResult) ∈
        searchRaw [slideA] "budget plan" 10 none none none ∧
      (⟨slideA, 1, "Matched: budget, plan"⟩ : SlideSearchResult) ∈
        searchRaw [slideA] "budget plan" 10 (some "Alpha") none none ∧
      (⟨slideA, 1, "Matched: budget, plan"⟩ : SlideSearchResult) ∈
        searchRaw [slideA] "budget plan" 10 (some "Alpha") none none)) :=
  ⟨exampleSearchMember,
   claim_C4_conjunctive_and_monotone [slideA] "budget plan" 10 (some "Alpha") none none
     ⟨slideA, 1, "Matched: budget, plan"⟩ exampleSearchMember⟩

end Foundever.SlideLibrary

namespace Foundever.SlideLibrary

/-- No lexicon entry is keyed by the fallback label. -/
theorem label_keywords_no_unclassified :
    ∀ p ∈ LABEL_KEYWORDS, p.1 ≠ "unclassified" := by decide

/-- Lexicon keys determine their keyword lists. -/
theorem label_keywords_key_determines :
    ∀ p ∈ LABEL_KEYWORDS, ∀ q ∈ LABEL_KEYWORDS, p.1 = q.1 → p.2 = q.2 := by decide

/-- Every lexicon holds at most 20 keywords. -/
theorem label_keywords_len_le :
    ∀ p ∈ LABEL_KEYWORDS, p.2.length ≤ 20 := by decide

/-- When `_classify_text` reports a genuine lexicon label, the
confidence is exactly the rounded boosted clamped match ratio of that
label, and the matched-keyword list is nonempty. -/
theorem classify_text_conf (text θ label : String) (kws : List String) (c : ℚ)
    (mkw : List String)
    (hk : (label, kws) ∈ LABEL_KEYWORDS)
    (hc : classify_text text θ = (label, c, mkw)) :
    c = pyRound3 (labelScore mkw.length kws.length (themeMatched kws θ)) ∧
    mkw ≠ [] := by
  cases hpb : pickBest (classifyScores text θ) with
  | none =>
      rw [classify_text, hpb] at hc
      have hlab : label = "unclassified" := by
        have := congrArg Prod.fst hc
        simpa using this.symm
      exact absurd rfl (hlab ▸ label_keywords_no_unclassified (label, kws) hk)
  | some x =>
      rw [classify_text, hpb] at hc
      obtain ⟨p, hp, he1, he2, hne, he3⟩ := mem_classifyScores (pickBest_mem hpb)
      have hx1 : x.1 = label := congrArg Prod.fst hc
      have hx2 : pyRound3 x.2.1 = c := congrArg (fun y => y.2.1) hc
      have hx3 : x.2.2 = mkw := congrArg (fun y => y.2.2) hc
      have hpk : p.2 = kws := by
        refine label_keywords_key_determines p hp (label, kws) hk ?_
        rw [← he1, hx1]
      rw [← hx2, he3, hx3, hpk]
      exact ⟨rfl, hx3 ▸ hne⟩

/-- Strictness of the 1.5 theme boost below the clamp: for a match
ratio below 1 (over a lexicon of the implemented sizes), the boosted
rounded score strictly exceeds the unboosted rounded score. -/
theorem labelScore_boost_strict (m n : Nat) (h0 : 0 < m) (hmn : m < n) (hn : n ≤ 20) :
    pyRound3 (labelScore m n false) < pyRound3 (labelScore m n true) := by
  have hn0 : (0:ℚ) < (n:ℚ) := by
    have : 0 < n := by omega
    exact_mod_cast this
  have hm1 : (1:ℚ) ≤ (m:ℚ) := by exact_mod_cast h0
  have hm_le : (m:ℚ) + 1 ≤ (n:ℚ) := by exact_mod_cast hmn
  have hn20 : (n:ℚ) ≤ 20 := by exact_mod_cast hn
  set s : ℚ := (m:ℚ) / (n:ℚ) with hs
  have hs_lb : 1/20 ≤ s := by
    rw [hs, le_div_iff hn0]
    nlinarith
  have hs_ub : s ≤ 19/20 := by
    rw [hs, div_le_iff hn0]
    nlinarith
  have hsA : labelScore m n true = min (s * (3/2)) 1 := by
    rw [labelScore, if_pos rfl]
  have hsB : labelScore m n false = s := by
    rw [labelScore, if_neg (by simp)]
    exact min_eq_left (by linarith)
  rw [hsA, hsB]
  have hB := pyRound3_close s
  rw [abs_le] at hB
  rcases le_or_lt (s * (3/2)) 1 with hcl | hcl
  · rw [min_eq_left hcl]
    have hA := pyRound3_close (s * (3/2))
    rw [abs_le] at hA
    linarith [hB.2, hA.1]
  · rw [min_eq_right (le_of_lt hcl), pyRound3_one]
    linarith [hB.2]

/-- C5 (amended): a slide whose winning label also matches its theme
name (1.5 boost) scores strictly higher than an otherwise-identical
slide where the label matches only in the body text, PROVIDED the
unboosted match ratio is below 1; when all of the winning lexicon
keywords already match, the 1.0 clamp makes the two confidences equal
(see the counterexample). -/
theorem claim_C5_amended (text θA θB label : String) (kws : List String)
    (cA cB : ℚ) (mkw : List String)
    (hk : (label, kws) ∈ LABEL_KEYWORDS)
    (hA : classify_text text θA = (label, cA, mkw))
    (hB : classify_text text θB = (label, cB, mkw))
    (htA : themeMatched kws θA = true)
    (htB : themeMatched kws θB = false)
    (hlt : mkw.length < kws.length) :
    cB < cA := by
  obtain ⟨hcA, hmne⟩ := classify_text_conf text θA label kws cA mkw hk hA
  obtain ⟨hcB, _⟩ := classify_text_conf text θB label kws cB mkw hk hB
  rw [htA] at hcA
  rw [htB] at hcB
  rw [hcA, hcB]
  exact labelScore_boost_strict mkw.length kws.length
    (List.length_pos.mpr hmne) hlt
    (label_keywords_len_le (label, kws) hk)

/-- C5 (divergence witness): a slide whose body text matches all seven
pricing keywords classifies with confidence exactly 1 whether or not
the keyword "pricing" also appears in the theme name — the 1.5 boost
is absorbed by the 1.0 clamp, so the theme-matching slide does NOT
score strictly higher than the body-only slide. -/
theorem claim_C5_counterexample :
    classify_text "pricing cost rate commercial fee investment budget" "pricing team" =
      ("pricing", 1,
       ["pricing", "cost", "rate", "commercial", "fee", "investment", "budget"]) ∧
    classify_text "pricing cost rate commercial fee investment budget" "team" =
      ("pricing", 1,
       ["pricing", "cost", "rate", "commercial", "fee", "investment", "budget"]) ∧
    themeMatched ["pricing", "cost", "rate", "commercial", "fee", "investment", "budget"]
      "pricing team" = true ∧
    themeMatched ["pricing", "cost", "rate", "commercial", "fee", "investment", "budget"]
      "team" = false := by
  have hT : labelScore 7 7 true = 1 := by
    rw [labelScore, if_pos rfl]
    push_cast
    norm_num
  have hF : labelScore 7 7 false = 1 := by
    rw [labelScore, if_neg (by simp)]
    push_cast
    norm_num
  refine ⟨?_, ?_, by decide, by decide⟩
  · have h : classify_text "pricing cost rate commercial fee investment budget"
        "pricing team" =
        ("pricing", pyRound3 (labelScore 7 7 true),
         ["pricing", "cost", "rate", "commercial", "fee", "investment", "budget"]) := rfl
    rw [h, hT, pyRound3_one]
  · have h : classify_text "pricing cost rate commercial fee investment budget"
        "team" =
        ("pricing", pyRound3 (labelScore 7 7 false),
         ["pricing", "cost", "rate", "commercial", "fee", "investment", "budget"]) := rfl
    rw [h, hF, pyRound3_one]

/-- C5 witness: with only three of the seven pricing keywords matched,
the theme-boosted confidence is strictly higher. -/
theorem claim_C5_witness :
    (("pricing", ["pricing", "cost", "rate", "commercial", "fee",
      "investment", "budget"]) ∈ LABEL_KEYWORDS) ∧
    classify_text "pricing cost rate" "pricing team" =
      ("pricing", pyRound3 (labelScore 3 7 true), ["pricing", "cost", "rate"]) ∧
    classify_text "pricing cost rate" "team" =
      ("pricing", pyRound3 (labelScore 3 7 false), ["pricing", "cost", "rate"]) ∧
    themeMatched ["pricing", "cost", "rate", "commercial", "fee",
      "investment", "budget"] "pricing team" = true ∧
    themeMatched ["pricing", "cost", "rate", "commercial", "fee",
      "investment", "budget"] "team" = false ∧
    (["pricing", "cost", "rate"].length <
      ["pricing", "cost", "rate", "commercial", "fee", "investment", "budget"].length) ∧
    pyRound3 (labelScore 3 7 false) < pyRound3 (labelScore 3 7 true) :=
  ⟨by decide, rfl, rfl, by decide, by decide, by decide,
   claim_C5_amended "pricing cost rate" "pricing team" "team" "pricing"
     ["pricing", "cost", "rate", "commercial", "fee", "investment", "budget"]
     (pyRound3 (labelScore 3 7 true)) (pyRound3 (labelScore 3 7 false))
     ["pricing", "cost", "rate"]
     (by decide) rfl rfl (by decide) (by decide) (by decide)⟩

end Foundever.SlideLibrary
